import Mathlib

/-!
Shallow embedding of the medical-report analysis core of this repository
(file extraction_utils.py): structured extraction (Stage 3), abnormal
detection (Stage 4), risk scoring (Stage 5) and summary generation
(Stage 6).

Modelling conventions:
* Python strings are modelled as List Char (with String at record
  boundaries); only the character sets actually reachable from the code
  are distinguished (ASCII plus the micro sign and the en dash).
* Python floats are modelled as exact rationals.  All numeric literals
  flowing through the pipeline are short decimal fractions, for which
  double rounding does not change any comparison made by the code.
* The two line regexes _PAT_A and _PAT_B are compiled to a specialized
  backtracking matcher: every quantifier in those patterns ranges over a
  single character class, so the lazy name group is the only point that
  needs explicit backtracking; each greedy class repetition is followed
  either by a disjoint character class or only by optional material, so
  maximal munch is exact.  The same holds inside the reference-range
  alternation.
* Rational arithmetic is implemented through mkRat so that every
  definition evaluates inside the kernel (the library field operations
  on Rat are irreducible); bridge lemmas below connect these operations
  to the ordinary field operations on ℚ.
-/

namespace MedLab

/-! ### Character classes (mirroring the regex classes, re.IGNORECASE) -/

def isSpaceCh (c : Char) : Bool :=
  c = ' ' || c = '\t' || c = '\n' || c = '\r' || c = '\x0b' || c = '\x0c'

def isAlphaCh (c : Char) : Bool :=
  ('A' ≤ c && c ≤ 'Z') || ('a' ≤ c && c ≤ 'z')

def isDigitCh (c : Char) : Bool :=
  '0' ≤ c && c ≤ '9'

/-- Character class of the name group: letters, digits, space, hyphen,
slash, parentheses, percent, plus, dot. -/
def testCls (c : Char) : Bool :=
  isAlphaCh c || isDigitCh c || c = ' ' || c = '-' || c = '/' ||
    c = '(' || c = ')' || c = '%' || c = '+' || c = '.'

/-- Character class of the unit group: letters, digits, slash, percent,
micro sign, caret. -/
def unitCls (c : Char) : Bool :=
  isAlphaCh c || isDigitCh c || c = '/' || c = '%' || c = 'µ' || c = '^'

/-- Separator class [-–to]+ of the inline range, under re.IGNORECASE. -/
def rangeSepCh (c : Char) : Bool :=
  c = '-' || c = '–' || c = 't' || c = 'o' || c = 'T' || c = 'O'

/-- Separator class [-–to]+ as used by parse_ref_str (no IGNORECASE,
but applied to lowercased text). -/
def rangeSepLowCh (c : Char) : Bool :=
  c = '-' || c = '–' || c = 't' || c = 'o'

/-- Class [\s(]* sitting between the unit and the inline range. -/
def wsParenCh (c : Char) : Bool :=
  isSpaceCh c || c = '('

/-- Word characters of the regex token \w (ASCII fragment). -/
def wordCh (c : Char) : Bool :=
  isAlphaCh c || isDigitCh c || c = '_'

/-! ### Python string helpers -/

def lowerCh (c : Char) : Char :=
  if 'A' ≤ c && c ≤ 'Z' then Char.ofNat (c.toNat + 32) else c

def upperCh (c : Char) : Char :=
  if 'a' ≤ c && c ≤ 'z' then Char.ofNat (c.toNat - 32) else c

def pyLower (s : List Char) : List Char := s.map lowerCh

/-- str.strip: remove leading and trailing whitespace. -/
def pyStrip (s : List Char) : List Char :=
  ((s.dropWhile isSpaceCh).reverse.dropWhile isSpaceCh).reverse

/-- str.title on the ASCII fragment: an alphabetic character is
uppercased after a non-alphabetic position and lowercased otherwise. -/
def pyTitleAux : List Char → Bool → List Char
  | [], _ => []
  | c :: cs, prevAlpha =>
    if isAlphaCh c then
      (if prevAlpha then lowerCh c else upperCh c) :: pyTitleAux cs true
    else
      c :: pyTitleAux cs false

def pyTitle (s : List Char) : List Char := pyTitleAux s false

def pyLowerS (s : String) : String := String.mk (pyLower s.data)

/-- re.findall of \w+ : maximal runs of word characters.  The second
argument accumulates the current run, reversed. -/
def wordTokensAux : List Char → List Char → List (List Char)
  | [], cur => if cur.isEmpty then [] else [cur.reverse]
  | c :: cs, cur =>
    if wordCh c then wordTokensAux cs (c :: cur)
    else if cur.isEmpty then wordTokensAux cs []
    else cur.reverse :: wordTokensAux cs []

def wordTokens (s : List Char) : List (List Char) := wordTokensAux s []

/-- str.splitlines for newline-delimited text (blank artefacts of the
final newline are dropped later by the blank-line filter, so the
difference between splitlines and a plain split on the newline
character is unobservable in this pipeline). -/
def splitLines : List Char → List Char → List (List Char)
  | [], acc => [acc.reverse]
  | c :: cs, acc =>
    if c = '\n' then acc.reverse :: splitLines cs [] else splitLines cs (c :: acc)

/-! ### Kernel-reducible rational arithmetic -/

/-- Difference of two rationals, via mkRat. -/
def qSub (a b : ℚ) : ℚ := mkRat (a.num * b.den - b.num * a.den) (a.den * b.den)

/-- Product of two rationals, via mkRat. -/
def qMul (a b : ℚ) : ℚ := mkRat (a.num * b.num) (a.den * b.den)

/-- Reciprocal of a rational, via mkRat. -/
def qInv (b : ℚ) : ℚ :=
  if 0 < b.num then mkRat b.den b.num.natAbs
  else if b.num < 0 then mkRat (-(b.den : Int)) b.num.natAbs
  else 0

/-- Quotient of two rationals, via mkRat. -/
def qDiv (a b : ℚ) : ℚ := qMul a (qInv b)

/-- Absolute value of a rational, via mkRat. -/
def qAbs (q : ℚ) : ℚ := if q < 0 then mkRat (-q.num) q.den else q

/-! ### Numeric text -/

def digitsToNat (ds : List Char) : Nat :=
  ds.foldl (fun n c => n * 10 + (c.toNat - 48)) 0

/-- Value of a matched numeric literal (optional sign, digits, optional
fraction), as float() computes it.  Exact rational semantics. -/
def strToQ (s : List Char) : ℚ :=
  let signed := s.head? = some '-'
  let s1 := if signed then s.tail else s
  let ip := s1.takeWhile isDigitCh
  let rest := s1.dropWhile isDigitCh
  let fp := match rest with
    | '.' :: t => t.takeWhile isDigitCh
    | _ => []
  let scale : Nat := 10 ^ fp.length
  let mag : Nat := digitsToNat ip * scale + digitsToNat fp
  if signed then mkRat (-(mag : Int)) scale else mkRat (mag : Int) scale

/-! ### The specialized matcher for _PAT_A and _PAT_B -/

/-- Raw Match: the four named groups of a successful line match.
Absent optional groups are recorded as the empty string, matching the
subsequent treatment (gd.get(...) or ""). -/
structure RawMatch where
  test : List Char
  value : List Char
  unit : List Char
  ref : List Char
deriving DecidableEq

/-- Greedy match of up to n characters of a class. -/
def takeAtMostAux (p : Char → Bool) : Nat → List Char → List Char × List Char
  | 0, s => ([], s)
  | _ + 1, [] => ([], [])
  | n + 1, c :: cs =>
    if p c then
      let r := takeAtMostAux p n cs
      (c :: r.1, r.2)
    else ([], c :: cs)

/-- Unsigned numeric literal \d+(?:\.\d+)?, greedy.  The optional
fraction is taken only when a digit follows the point (backtracking of
the optional group). -/
def parseUNum (s : List Char) : Option (List Char × List Char) :=
  let ds := s.takeWhile isDigitCh
  let r1 := s.dropWhile isDigitCh
  if ds.isEmpty then none
  else
    match r1 with
    | '.' :: t =>
      let fs := t.takeWhile isDigitCh
      if fs.isEmpty then some (ds, r1)
      else some (ds ++ '.' :: fs, t.dropWhile isDigitCh)
    | _ => some (ds, r1)

/-- Signed numeric literal -?\d+(?:\.\d+)?. -/
def parseNum (s : List Char) : Option (List Char × List Char) :=
  match s with
  | '-' :: t => (parseUNum t).map (fun r => ('-' :: r.1, r.2))
  | _ => parseUNum s

/-- First branch of the ref group:
\d+(?:\.\d+)?\s*[-–to]+\s*\d+(?:\.\d+)? anchored at the current
position. -/
def refBetween (s : List Char) : Option (List Char) :=
  match parseUNum s with
  | none => none
  | some (n1, s1) =>
    let sp1 := s1.takeWhile isSpaceCh
    let s2 := s1.dropWhile isSpaceCh
    let seps := s2.takeWhile rangeSepCh
    let s3 := s2.dropWhile rangeSepCh
    if seps.isEmpty then none
    else
      let sp2 := s3.takeWhile isSpaceCh
      let s4 := s3.dropWhile isSpaceCh
      match parseUNum s4 with
      | none => none
      | some (n2, _) => some (n1 ++ sp1 ++ seps ++ sp2 ++ n2)

/-- Second branch of the ref group: [<>]\s*\d+(?:\.\d+)? anchored at
the current position. -/
def refCmp (s : List Char) : Option (List Char) :=
  match s with
  | c :: cs =>
    if c = '<' || c = '>' then
      let sp := cs.takeWhile isSpaceCh
      match parseUNum (cs.dropWhile isSpaceCh) with
      | none => none
      | some (n, _) => some (c :: (sp ++ n))
    else none
  | [] => none

/-- The optional ref group, tried at a fixed position. -/
def parseRefGroup (s : List Char) : Option (List Char) :=
  (refBetween s).orElse (fun _ => refCmp s)

/-- Tail of both patterns after the value:
\s*(?P<unit>[A-Za-z/%µ^0-9]{1,12})?[\s(]*(?P<ref>...)?  .
Everything here is optional, so each greedy repetition takes its
maximum munch exactly as the regex engine does. -/
def finishMatch (name value s : List Char) : RawMatch :=
  let s1 := s.dropWhile isSpaceCh
  let u := takeAtMostAux unitCls 12 s1
  let s3 := u.2.dropWhile wsParenCh
  { test := name, value := value, unit := u.1,
    ref := (parseRefGroup s3).getD [] }

/-- Mandatory value group and the optional tail. -/
def afterValue (name s : List Char) : Option RawMatch :=
  match parseNum (s.dropWhile isSpaceCh) with
  | none => none
  | some (v, s2) => some (finishMatch name v s2)

/-- Rest of _PAT_B after the name: \s*[:\-]\s* then the value. -/
def restB (name s : List Char) : Option RawMatch :=
  match s.dropWhile isSpaceCh with
  | c :: cs => if c = ':' || c = '-' then afterValue name cs else none
  | [] => none

/-- Rest of _PAT_A after the name: \s+ then the value. -/
def restA (name s : List Char) : Option RawMatch :=
  match s with
  | c :: cs => if isSpaceCh c then afterValue name cs else none
  | [] => none

/-- Lazy repetition of the name group [...]{2,40}? : boundaries are
tried shortest first, and the first boundary at which the rest of the
pattern succeeds wins.  acc holds the name read so far, reversed;
taken counts repetition characters consumed after the leading letter. -/
def nameLoop (rest : List Char → List Char → Option RawMatch) :
    List Char → List Char → Nat → Option RawMatch
  | s, acc, taken =>
    match (if 2 ≤ taken then rest acc.reverse s else none) with
    | some r => some r
    | none =>
      if 40 ≤ taken then none
      else
        match s with
        | [] => none
        | c :: cs =>
          if testCls c then nameLoop rest cs (c :: acc) (taken + 1) else none

/-- One pattern: ^\s*, a leading letter, then the lazy name group and
the pattern rest. -/
def patMatch (rest : List Char → List Char → Option RawMatch)
    (line : List Char) : Option RawMatch :=
  match line.dropWhile isSpaceCh with
  | c :: cs => if isAlphaCh c then nameLoop rest cs [c] 0 else none
  | [] => none

/-- Try _PAT_B first, then _PAT_A, as in extract_parameters. -/
def matchLine (line : List Char) : Option RawMatch :=
  (patMatch restB line).orElse (fun _ => patMatch restA line)

/-! ### The reference knowledge base -/

/-- One REFERENCE_DB value: (ref_min, ref_max, unit, canonical_name). -/
structure RefEntry where
  lo : ℚ
  hi : ℚ
  unit : String
  canonical : String
deriving DecidableEq

/-- Decimal with one fractional digit: d1 n is n divided by 10. -/
def d1 (n : Int) : ℚ := mkRat n 10

set_option maxHeartbeats 1000000 in
/-- REFERENCE_DB entries, part 1. -/
def refDB1 : List (String × RefEntry) := [
  ("hemoglobin",          ⟨12, d1 175, "g/dL", "Hemoglobin"⟩),
  ("haemoglobin",         ⟨12, d1 175, "g/dL", "Hemoglobin"⟩),
  ("hb",                  ⟨12, d1 175, "g/dL", "Hemoglobin"⟩),
  ("hgb",                 ⟨12, d1 175, "g/dL", "Hemoglobin"⟩),
  ("hematocrit",          ⟨36, 52, "%", "Hematocrit"⟩),
  ("haematocrit",         ⟨36, 52, "%", "Hematocrit"⟩),
  ("packed cell volume",  ⟨36, 52, "%", "Packed Cell Volume"⟩),
  ("pcv",                 ⟨36, 52, "%", "Packed Cell Volume"⟩),
  ("rbc",                 ⟨4, d1 59, "M/µL", "Red Blood Cells"⟩),
  ("red blood cell",      ⟨4, d1 59, "M/µL", "Red Blood Cells"⟩),
  ("wbc",                 ⟨4, 11, "K/µL", "White Blood Cells"⟩),
  ("white blood cell",    ⟨4, 11, "K/µL", "White Blood Cells"⟩),
  ("leukocyte",           ⟨4, 11, "K/µL", "Leukocytes"⟩),
  ("platelet",            ⟨150, 400, "K/µL", "Platelets"⟩),
  ("thrombocyte",         ⟨150, 400, "K/µL", "Platelets"⟩)]

set_option maxHeartbeats 1000000 in
/-- REFERENCE_DB entries, part 2. -/
def refDB2 : List (String × RefEntry) := [
  ("mcv",                 ⟨80, 100, "fL", "MCV"⟩),
  ("mch",                 ⟨27, 33, "pg", "MCH"⟩),
  ("mchc",                ⟨32, 36, "g/dL", "MCHC"⟩),
  ("rdw",                 ⟨d1 115, d1 145, "%", "RDW"⟩),
  ("neutrophil",          ⟨40, 75, "%", "Neutrophils"⟩),
  ("lymphocyte",          ⟨20, 45, "%", "Lymphocytes"⟩),
  ("monocyte",            ⟨2, 10, "%", "Monocytes"⟩),
  ("eosinophil",          ⟨1, 6, "%", "Eosinophils"⟩),
  ("basophil",            ⟨0, 1, "%", "Basophils"⟩),
  ("glucose",             ⟨70, 100, "mg/dL", "Blood Glucose"⟩),
  ("fasting glucose",     ⟨70, 100, "mg/dL", "Fasting Blood Glucose"⟩),
  ("fasting sugar",       ⟨70, 100, "mg/dL", "Fasting Blood Sugar"⟩),
  ("fbs",                 ⟨70, 100, "mg/dL", "Fasting Blood Sugar"⟩),
  ("random glucose",      ⟨70, 140, "mg/dL", "Random Blood Glucose"⟩),
  ("random blood sugar",  ⟨70, 140, "mg/dL", "Random Blood Sugar"⟩)]

set_option maxHeartbeats 1000000 in
/-- REFERENCE_DB entries, part 3. -/
def refDB3 : List (String × RefEntry) := [
  ("rbs",                 ⟨70, 140, "mg/dL", "Random Blood Sugar"⟩),
  ("blood sugar",         ⟨70, 140, "mg/dL", "Blood Sugar"⟩),
  ("hba1c",               ⟨4, d1 56, "%", "HbA1c"⟩),
  ("glycated hemoglobin", ⟨4, d1 56, "%", "Glycated Hemoglobin"⟩),
  ("total cholesterol",   ⟨0, 200, "mg/dL", "Total Cholesterol"⟩),
  ("cholesterol",         ⟨0, 200, "mg/dL", "Total Cholesterol"⟩),
  ("ldl",                 ⟨0, 130, "mg/dL", "LDL Cholesterol"⟩),
  ("hdl",                 ⟨40, 60, "mg/dL", "HDL Cholesterol"⟩),
  ("triglyceride",        ⟨0, 150, "mg/dL", "Triglycerides"⟩),
  ("vldl",                ⟨0, 30, "mg/dL", "VLDL"⟩),
  ("non-hdl",             ⟨0, 160, "mg/dL", "Non-HDL Cholesterol"⟩),
  ("sgpt",                ⟨0, 40, "U/L", "SGPT (ALT)"⟩),
  ("alt",                 ⟨0, 40, "U/L", "ALT"⟩),
  ("sgot",                ⟨0, 40, "U/L", "SGOT (AST)"⟩),
  ("ast",                 ⟨0, 40, "U/L", "AST"⟩)]

set_option maxHeartbeats 1000000 in
/-- REFERENCE_DB entries, part 4. -/
def refDB4 : List (String × RefEntry) := [
  ("alkaline phosphatase", ⟨44, 147, "U/L", "Alkaline Phosphatase"⟩),
  ("alp",                 ⟨44, 147, "U/L", "ALP"⟩),
  ("ggt",                 ⟨0, 60, "U/L", "GGT"⟩),
  ("total bilirubin",     ⟨d1 2, d1 12, "mg/dL", "Bilirubin Total"⟩),
  ("bilirubin",           ⟨d1 2, d1 12, "mg/dL", "Bilirubin Total"⟩),
  ("direct bilirubin",    ⟨0, d1 3, "mg/dL", "Bilirubin Direct"⟩),
  ("indirect bilirubin",  ⟨0, d1 9, "mg/dL", "Bilirubin Indirect"⟩),
  ("albumin",             ⟨d1 35, 5, "g/dL", "Albumin"⟩),
  ("total protein",       ⟨6, d1 83, "g/dL", "Total Protein"⟩),
  ("globulin",            ⟨2, d1 35, "g/dL", "Globulin"⟩),
  ("creatinine",          ⟨d1 6, d1 12, "mg/dL", "Creatinine"⟩),
  ("serum creatinine",    ⟨d1 6, d1 12, "mg/dL", "Serum Creatinine"⟩),
  ("blood urea nitrogen", ⟨7, 20, "mg/dL", "BUN"⟩),
  ("bun",                 ⟨7, 20, "mg/dL", "BUN"⟩),
  ("urea",                ⟨7, 20, "mg/dL", "Blood Urea"⟩)]

set_option maxHeartbeats 1000000 in
/-- REFERENCE_DB entries, part 5. -/
def refDB5 : List (String × RefEntry) := [
  ("uric acid",           ⟨d1 24, 7, "mg/dL", "Uric Acid"⟩),
  ("egfr",                ⟨60, 120, "mL/min", "eGFR"⟩),
  ("tsh",                 ⟨d1 4, 4, "mIU/L", "TSH"⟩),
  ("thyroid stimulating", ⟨d1 4, 4, "mIU/L", "TSH"⟩),
  ("t3",                  ⟨80, 200, "ng/dL", "T3"⟩),
  ("t4",                  ⟨5, 12, "µg/dL", "T4"⟩),
  ("free t3",             ⟨d1 23, d1 42, "pg/mL", "Free T3"⟩),
  ("free t4",             ⟨d1 8, d1 18, "ng/dL", "Free T4"⟩),
  ("sodium",              ⟨136, 145, "mEq/L", "Sodium"⟩),
  ("potassium",           ⟨d1 35, 5, "mEq/L", "Potassium"⟩),
  ("chloride",            ⟨98, 107, "mEq/L", "Chloride"⟩),
  ("bicarbonate",         ⟨22, 29, "mEq/L", "Bicarbonate"⟩),
  ("calcium",             ⟨d1 85, d1 105, "mg/dL", "Calcium"⟩),
  ("phosphorus",          ⟨d1 25, d1 45, "mg/dL", "Phosphorus"⟩),
  ("magnesium",           ⟨d1 17, d1 24, "mg/dL", "Magnesium"⟩)]

set_option maxHeartbeats 1000000 in
/-- REFERENCE_DB entries, part 6. -/
def refDB6 : List (String × RefEntry) := [
  ("vitamin d",           ⟨30, 100, "ng/mL", "Vitamin D"⟩),
  ("25-oh",               ⟨30, 100, "ng/mL", "Vitamin D (25-OH)"⟩),
  ("vitamin b12",         ⟨190, 900, "pg/mL", "Vitamin B12"⟩),
  ("b12",                 ⟨190, 900, "pg/mL", "Vitamin B12"⟩),
  ("folate",              ⟨d1 27, 17, "ng/mL", "Folate"⟩),
  ("ferritin",            ⟨12, 300, "ng/mL", "Ferritin"⟩),
  ("serum iron",          ⟨60, 170, "µg/dL", "Serum Iron"⟩),
  ("iron",                ⟨60, 170, "µg/dL", "Serum Iron"⟩),
  ("tibc",                ⟨240, 450, "µg/dL", "TIBC"⟩),
  ("crp",                 ⟨0, 1, "mg/dL", "C-Reactive Protein"⟩),
  ("c-reactive protein",  ⟨0, 1, "mg/dL", "C-Reactive Protein"⟩),
  ("esr",                 ⟨0, 20, "mm/hr", "ESR"⟩),
  ("psa",                 ⟨0, 4, "ng/mL", "PSA"⟩),
  ("hcg",                 ⟨0, 5, "mIU/mL", "hCG"⟩)]

/-- REFERENCE_DB in its source insertion order (aliases are the keys). -/
def REFERENCE_DB : List (String × RefEntry) :=
  refDB1 ++ refDB2 ++ refDB3 ++ refDB4 ++ refDB5 ++ refDB6

/-- Whether list a occurs contiguously inside list b (the Python
substring test). -/
def isPref : List Char → List Char → Bool
  | [], _ => true
  | _ :: _, [] => false
  | x :: xs, y :: ys => x = y && isPref xs ys

def isInfix (a : List Char) : List Char → Bool
  | [] => a.isEmpty
  | y :: ys => isPref a (y :: ys) || isInfix a ys

/-- The substring-match loop of lookup_reference: scan the table in
insertion order, keeping the first key of strictly greatest length
among those related to n by substring containment in either
direction. -/
def bestKeyAux (n : List Char) :
    List (String × RefEntry) → Option (String × RefEntry) →
      Option (String × RefEntry)
  | [], best => best
  | kv :: rest, best =>
    bestKeyAux n rest
      (if isInfix kv.1.data n || isInfix n kv.1.data then
        match best with
        | none => some kv
        | some b => if b.1.data.length < kv.1.data.length then some kv else some b
      else best)

/-- Stage 3 helper lookup_reference: exact lowercase match first,
then longest substring match, else the title-cased fallback. -/
def lookup_reference (name : List Char) :
    Option ℚ × Option ℚ × String × String :=
  let n := pyStrip (pyLower name)
  match REFERENCE_DB.find? (fun kv => kv.1.data = n) with
  | some kv => (some kv.2.lo, some kv.2.hi, kv.2.unit, kv.2.canonical)
  | none =>
    match bestKeyAux n REFERENCE_DB none with
    | some kv => (some kv.2.lo, some kv.2.hi, kv.2.unit, kv.2.canonical)
    | none => (none, none, "", String.mk (pyTitle (pyStrip name)))

/-- The substring candidates of a lookup key: database entries whose
alias contains the key or is contained in it. -/
def candKeys (n : List Char) : List (String × RefEntry) :=
  REFERENCE_DB.filter (fun kv => isInfix kv.1.data n || isInfix n kv.1.data)

/-- Greatest alias length among a candidate list. -/
def maxKeyLen (l : List (String × RefEntry)) : Nat :=
  (l.map (fun kv => kv.1.data.length)).foldr max 0

/-- The selection the specification describes: among the candidates,
the longest alias, ties broken by first insertion order — that is, the
first candidate whose alias length is maximal. -/
def specPick (l : List (String × RefEntry)) : Option (String × RefEntry) :=
  l.find? (fun kv => kv.1.data.length = maxKeyLen l)

/-- The lookup contract as the specification words it: exact
case-insensitive alias match first; otherwise the longest substring
candidate with first-inserted tie break; otherwise no bounds, empty
unit and the title-cased original input. -/
def lookupSpec (name : List Char) : Option ℚ × Option ℚ × String × String :=
  let n := pyStrip (pyLower name)
  match REFERENCE_DB.find? (fun kv => kv.1.data = n) with
  | some kv => (some kv.2.lo, some kv.2.hi, kv.2.unit, kv.2.canonical)
  | none =>
    match specPick (candKeys n) with
    | some kv => (some kv.2.lo, some kv.2.hi, kv.2.unit, kv.2.canonical)
    | none => (none, none, "", String.mk (pyTitle (pyStrip name)))

/-- Left-biased longer-alias choice, the combining step of the
substring loop. -/
def mergeBest : Option (String × RefEntry) → Option (String × RefEntry) →
    Option (String × RefEntry)
  | none, b => b
  | some a, none => some a
  | some a, some b =>
    if a.1.data.length < b.1.data.length then some b else some a

/-- First candidate of maximal alias length, computed recursively. -/
def firstMax : List (String × RefEntry) → Option (String × RefEntry)
  | [] => none
  | x :: xs => mergeBest (some x) (firstMax xs)

/-! ### parse_ref_str -/

inductive RefKind where
  | between
  | lessThan
  | greaterThan
deriving DecidableEq

/-- The between regex of parse_ref_str, anchored at the current
position (the scanned text is already lowercased). -/
def betweenAt (s : List Char) : Option (ℚ × ℚ) :=
  match parseUNum s with
  | none => none
  | some (n1, s1) =>
    let s2 := s1.dropWhile isSpaceCh
    let seps := s2.takeWhile rangeSepLowCh
    let s3 := s2.dropWhile rangeSepLowCh
    if seps.isEmpty then none
    else
      match parseUNum (s3.dropWhile isSpaceCh) with
      | none => none
      | some (n2, _) => some (strToQ n1, strToQ n2)

/-- re.search of the between regex: leftmost match. -/
def searchBetween : List Char → Option (ℚ × ℚ)
  | [] => none
  | c :: cs =>
    match betweenAt (c :: cs) with
    | some r => some r
    | none => searchBetween cs

/-- re.search of a comparator regex: leftmost comparator character
followed by optional space and a number. -/
def searchCmp (ch : Char) : List Char → Option ℚ
  | [] => none
  | c :: cs =>
    match (if c = ch then
        (parseUNum (cs.dropWhile isSpaceCh)).map (fun r => strToQ r.1)
      else none) with
    | some q => some q
    | none => searchCmp ch cs

/-- parse_ref_str: reference range text to (low, high, kind). -/
def parse_ref_str (ref : List Char) :
    Option ℚ × Option ℚ × Option RefKind :=
  if ref.isEmpty then (none, none, none)
  else
    let s := pyLower (pyStrip ref)
    match searchBetween s with
    | some (a, b) => (some a, some b, some RefKind.between)
    | none =>
      match searchCmp '<' s with
      | some b => (none, some b, some RefKind.lessThan)
      | none =>
        match searchCmp '>' s with
        | some a => (some a, none, some RefKind.greaterThan)
        | none => (none, none, none)

/-! ### Display formatting -/

/-- Decimal digits of a natural number (most significant first); the
first argument is fuel, always sufficient at n + 1. -/
def natDigitsAux : Nat → Nat → List Char
  | 0, _ => []
  | fuel + 1, n =>
    if n < 10 then [Char.ofNat (48 + n)]
    else natDigitsAux fuel (n / 10) ++ [Char.ofNat (48 + n % 10)]

def natToChars (n : Nat) : List Char := natDigitsAux (n + 1) n

def natStr (n : Nat) : String := String.mk (natToChars n)

/-- Fractional digits: left-pad to width k, then drop trailing zeros
but keep at least one digit. -/
def fracChars (fp k : Nat) : List Char :=
  let s := natToChars fp
  let padded := List.replicate (k - s.length) '0' ++ s
  let r := padded.reverse.dropWhile (fun c => c = '0')
  if r.isEmpty then ['0'] else r.reverse

/-- Decimal rendering of a rational, as Python repr renders the floats
that reach the display string.  (The database stores some bounds as
Python ints, which print without a trailing .0; that provenance is not
tracked here — the rendered text is display-only and never inspected
by the pipeline.) -/
def fmtQ (q : ℚ) : String :=
  match (List.range 21).find? (fun k => 10 ^ k % q.den = 0) with
  | some k =>
    let n := q.num.natAbs * (10 ^ k / q.den)
    String.mk ((if q.num < 0 then ['-'] else []) ++
      natToChars (n / 10 ^ k) ++ '.' :: fracChars (n % 10 ^ k) k)
  | none => String.mk (natToChars q.num.natAbs ++ '/' :: natToChars q.den)

/-! ### The parameter resolver (extract_parameters) -/

/-- Python truthiness of a float-or-None: None and 0.0 are falsy. -/
def truthyQ : Option ℚ → Bool
  | none => false
  | some q => if q = 0 then false else true

/-- One structured row of the extraction DataFrame.  rawRef records the
local variable ref_raw (the stripped inline range text), which feeds
both the display fallback and parse_ref_str. -/
structure Row where
  test : String
  value : ℚ
  unit : String
  refRange : String
  rawRef : String
  refLo : Option ℚ
  refHi : Option ℚ
  refKind : Option RefKind
deriving DecidableEq

/-- The Reference Range display string:
interpolated pair if ref_lo and ref_hi are truthy, else ref_raw or an
em dash. -/
def displayRange (lo hi : Option ℚ) (rawRef : String) : String :=
  if truthyQ lo && truthyQ hi then
    fmtQ (lo.getD 0) ++ " – " ++ fmtQ (hi.getD 0)
  else if rawRef = "" then "—" else rawRef

/-- The _ref_kind merge: the inline kind if present, else between when
both resolved bounds are truthy, else no kind. -/
def mergeKind (inKind : Option RefKind) (lo hi : Option ℚ) : Option RefKind :=
  match inKind with
  | some k => some k
  | none => if truthyQ lo && truthyQ hi then some RefKind.between else none

/-- Enrichment of one Raw Match with the reference database and the
inline range (lines 249 to 272 of extraction_utils.py). -/
def resolveRow (m : RawMatch) : Row :=
  let rawName := pyStrip m.test
  let value := strToQ m.value
  let unitRaw := pyStrip m.unit
  let refRaw := pyStrip m.ref
  let db := lookup_reference rawName
  let inl := parse_ref_str refRaw
  let refLo := match inl.1 with
    | some x => some x
    | none => db.1
  let refHi := match inl.2.1 with
    | some x => some x
    | none => db.2.1
  let unit := if unitRaw.isEmpty then db.2.2.1 else String.mk unitRaw
  let kind := mergeKind inl.2.2 refLo refHi
  { test := db.2.2.2, value := value, unit := unit,
    refRange := displayRange refLo refHi (String.mk refRaw),
    rawRef := String.mk refRaw,
    refLo := refLo, refHi := refHi, refKind := kind }

/-- The noise-word set of extract_parameters. -/
def skipKeywords : List (List Char) :=
  ["page".data, "name".data, "date".data, "patient".data, "lab".data,
   "result".data, "age".data, "sex".data, "gender".data, "id".data,
   "no".data, "dr".data, "ref".data, "unit".data, "time".data]

/-- Processing of one line of cleaned text: strip, match the two
patterns, reject noise, resolve.  The none result models the continue
branches.  The value text of a match always converts (float cannot
fail on the matched shape), so the ValueError branch is unreachable. -/
def processLine (line : List Char) : Option Row :=
  let l := pyStrip line
  if l.isEmpty then none
  else
    match matchLine l with
    | none => none
    | some m =>
      let rawName := pyStrip m.test
      if rawName.isEmpty then none
      else
        let words := wordTokens (pyLower rawName)
        if rawName.length < 2 ||
            words.any (fun w => skipKeywords.any (fun k => k = w)) then none
        else some (resolveRow m)

/-- The canonical-name deduplication key (seen-set membership). -/
def keyL (r : Row) : String := pyLowerS r.test

/-- The in-loop deduplication by lowercased canonical name: the first
occurrence wins, later ones are skipped. -/
def dedupSeen : List Row → List String → List Row
  | [], _ => []
  | r :: rs, seen =>
    if seen.contains (keyL r) then dedupSeen rs seen
    else r :: dedupSeen rs (keyL r :: seen)

/-- DataFrame.drop_duplicates on the Test column, keeping the first
occurrence (a no-op after dedupSeen, proved below). -/
def dropDupTest : List Row → List String → List Row
  | [], _ => []
  | r :: rs, seen =>
    if seen.contains r.test then dropDupTest rs seen
    else r :: dropDupTest rs (r.test :: seen)

/-- The rows parsed from the lines of a text, in document order and
before deduplication. -/
def parsedRows (text : String) : List Row :=
  (splitLines text.data []).filterMap processLine

/-- Stage 3: cleaned text to the list of structured rows. -/
def extract_parameters (text : String) : List Row :=
  dropDupTest (dedupSeen (parsedRows text) []) []

/-! ### Stage 4: abnormal detection -/

inductive Status where
  | normal
  | high
  | low
  | unknown
deriving DecidableEq

inductive Severity where
  | none
  | mild
  | moderate
  | severe
deriving DecidableEq

/-- A bound cell of the assembled DataFrame: None survives only in an
all-None column (object dtype); in a column that also holds numbers,
pandas stores missing entries as the float NaN. -/
inductive PyF where
  | none
  | nan
  | val (q : ℚ)
deriving DecidableEq

/-- Column-wise conversion of an optional bound into its DataFrame
cell, given whether the whole column is None. -/
def toPyF (allNone : Bool) : Option ℚ → PyF
  | Option.none => if allNone then PyF.none else PyF.nan
  | some q => PyF.val q

/-- Python comparison value < b for a float against a bound cell:
a TypeError against None (modelled as Option.none), always false
against NaN. -/
def pyLt (a : ℚ) (b : PyF) : Option Bool :=
  match b with
  | PyF.none => Option.none
  | PyF.nan => some false
  | PyF.val q => some (decide (a < q))

/-- Python comparison value > b for a float against a bound cell. -/
def pyGt (a : ℚ) (b : PyF) : Option Bool :=
  match b with
  | PyF.none => Option.none
  | PyF.nan => some false
  | PyF.val q => some (decide (q < a))

/-- compute_status of extraction_utils.py; the Option.none result
models an uncaught TypeError (never reached from the pipeline). -/
def compute_status (value : ℚ) (lo hi : PyF) (kind : Option RefKind) :
    Option Status :=
  if lo = PyF.none ∧ hi = PyF.none then some Status.unknown
  else
    match kind with
    | some RefKind.between =>
      match pyLt value lo with
      | Option.none => Option.none
      | some true => some Status.low
      | some false =>
        match pyGt value hi with
        | Option.none => Option.none
        | some true => some Status.high
        | some false => some Status.normal
    | some RefKind.lessThan =>
      match pyLt value hi with
      | Option.none => Option.none
      | some b => some (if b then Status.normal else Status.high)
    | some RefKind.greaterThan =>
      match pyGt value lo with
      | Option.none => Option.none
      | some b => some (if b then Status.normal else Status.low)
    | Option.none => some Status.unknown

/-- compute_severity of extraction_utils.py.  With both bounds numeric
the deviation is compared against 0.2 and 0.5; if either bound cell is
NaN (but not None), span and deviation are NaN, every comparison is
false, and the function falls through to Severe. -/
def compute_severity (value : ℚ) (lo hi : PyF) (status : Status) :
    Severity :=
  if status = Status.normal ∨ status = Status.unknown then Severity.none
  else if lo = PyF.none ∨ hi = PyF.none then Severity.moderate
  else
    match lo, hi with
    | PyF.val l, PyF.val h =>
      let span := qAbs (qSub h l)
      if span = 0 then Severity.moderate
      else
        let deviation :=
          qDiv (qAbs (qSub value (if status = Status.low then l else h))) span
        if deviation < mkRat 1 5 then Severity.mild
        else if deviation < mkRat 1 2 then Severity.moderate
        else Severity.severe
    | _, _ => Severity.severe

/-- A classified row: the extraction row with Status and Severity
appended.  (The code also drops the internal columns for display; the
fields are kept here, which the display does not read.) -/
structure ClassifiedRow extends Row where
  status : Status
  severity : Severity
deriving DecidableEq

/-- Stage 4: add Status and Severity to every row.  Option.none models
an uncaught exception (never reached: a between kind always comes with
numeric bounds).  The NaN guard on Value is omitted: matched values
are numerals and never NaN. -/
def detect_abnormal (rows : List Row) : Option (List ClassifiedRow) :=
  if rows.isEmpty then some [] else
  let loAll := rows.all (fun r => r.refLo = Option.none)
  let hiAll := rows.all (fun r => r.refHi = Option.none)
  rows.mapM (fun r =>
    match compute_status r.value (toPyF loAll r.refLo) (toPyF hiAll r.refHi)
        r.refKind with
    | Option.none => Option.none
    | some st =>
      some { toRow := r, status := st,
             severity := compute_severity r.value (toPyF loAll r.refLo)
               (toPyF hiAll r.refHi) st })


/-! ### Stage 5: risk scoring -/

/-- One RISK_CATEGORIES entry. -/
structure RiskMeta where
  category : String
  tests : List String
  icon : String
  insight : String
deriving DecidableEq

/-- The fixed category table, in source order. -/
def RISK_CATEGORIES : List RiskMeta := [
  { category := "Diabetes Risk",
    tests := ["Blood Glucose", "Fasting Blood Glucose", "Fasting Blood Sugar",
              "Random Blood Sugar", "HbA1c", "Glycated Hemoglobin"],
    icon := "🩸",
    insight := "Elevated glucose or HbA1c values may indicate impaired glucose tolerance." },
  { category := "Cardiovascular Risk",
    tests := ["Total Cholesterol", "LDL Cholesterol", "HDL Cholesterol",
              "Triglycerides", "VLDL"],
    icon := "❤️",
    insight := "Abnormal lipid values are associated with increased cardiovascular risk." },
  { category := "Kidney Function",
    tests := ["Creatinine", "Serum Creatinine", "BUN", "Blood Urea",
              "Uric Acid", "eGFR"],
    icon := "🫘",
    insight := "Out-of-range kidney markers may indicate reduced kidney filtration." },
  { category := "Liver Function",
    tests := ["SGPT (ALT)", "ALT", "SGOT (AST)", "AST", "Alkaline Phosphatase",
              "ALP", "Bilirubin Total", "GGT"],
    icon := "🫀",
    insight := "Elevated liver enzymes may reflect liver stress or inflammation." },
  { category := "Thyroid Health",
    tests := ["TSH", "Free T3", "Free T4", "T3", "T4"],
    icon := "🦋",
    insight := "Thyroid imbalances affect metabolism, energy, and mood." },
  { category := "Anaemia Risk",
    tests := ["Hemoglobin", "Red Blood Cells", "Hematocrit", "Ferritin",
              "Serum Iron", "MCV"],
    icon := "💉",
    insight := "Low blood cell or iron values may indicate anaemia." }]

/-- One risk score record. -/
structure RiskScore where
  category : String
  icon : String
  score : Nat
  level : String
  testsFound : Nat
  testsAbnormal : Nat
  insight : String
deriving DecidableEq

/-- The name_status dictionary: lowercased canonical name to Status,
later rows overwriting earlier ones. -/
def nameStatus (rows : List ClassifiedRow) (n : String) : Option Status :=
  (rows.reverse.find? (fun r => pyLowerS r.test = n)).map
    (fun r => r.status)

/-- The relevant tests of a category: those of its list present in the
dictionary. -/
def relevantOf (rows : List ClassifiedRow) (meta : RiskMeta) : List String :=
  meta.tests.filter (fun t => (nameStatus rows (pyLowerS t)).isSome)

/-- The abnormal count: relevant tests whose status differs from
Normal (Unknown therefore counts). -/
def abnOf (rows : List ClassifiedRow) (meta : RiskMeta) : Nat :=
  (relevantOf rows meta).countP
    (fun t => !(nameStatus rows (pyLowerS t) = some Status.normal))

/-- Level bucketing of a score. -/
def levelOf (score : Nat) : String :=
  if score < 30 then "low" else if score < 65 then "medium" else "high"

/-- The risk entry of one category, when it has relevant tests.
int((k divided by n) times 100) in double precision coincides with the
integer floor for every panel size reachable here (n at most 8). -/
def riskOf (rows : List ClassifiedRow) (meta : RiskMeta) : Option RiskScore :=
  let rel := relevantOf rows meta
  if rel.isEmpty then none
  else
    let nAbn := abnOf rows meta
    let score := nAbn * 100 / rel.length
    some { category := meta.category, icon := meta.icon, score := score,
           level := levelOf score, testsFound := rel.length,
           testsAbnormal := nAbn, insight := meta.insight }

/-- Stable insertion into a list sorted by descending score: the new
element goes after every earlier element of greater or equal score,
reproducing the stable sort on the negated score key. -/
def insertDesc (x : RiskScore) : List RiskScore → List RiskScore
  | [] => [x]
  | y :: ys => if x.score ≤ y.score then y :: insertDesc x ys else x :: y :: ys

def sortDesc : List RiskScore → List RiskScore
  | [] => []
  | x :: xs => insertDesc x (sortDesc xs)

/-- Stage 5: risk category scores, sorted by descending score. -/
def compute_risk_scores (rows : List ClassifiedRow) : List RiskScore :=
  if rows.isEmpty then []
  else sortDesc (RISK_CATEGORIES.filterMap (riskOf rows))

/-! ### Stage 6: summary generation -/

/-- One keyed explanation: key, text for High, text for Low. -/
structure Explanation where
  key : String
  hi : String
  lo : String
deriving DecidableEq

/-- The keyed explanation table, in source order. -/
def EXPLANATIONS : List Explanation := [
  { key := "hemoglobin",
    hi := "High hemoglobin can occur due to dehydration, smoking, or certain lung conditions. It does not always mean something serious, but your doctor should review it.",
    lo := "Low hemoglobin is the most common sign of anaemia. You may feel tired, short of breath, or dizzy. Iron, B12, or folate deficiency are common causes. A doctor can determine the exact cause and recommend treatment." },
  { key := "blood glucose",
    hi := "Higher-than-normal blood glucose may indicate pre-diabetes or diabetes. Diet, exercise, weight management, and (if advised) medications are key approaches.",
    lo := "Low blood glucose (hypoglycaemia) can cause shakiness, confusion, or weakness. If you take diabetes medication, discuss this with your doctor promptly." },
  { key := "fasting blood sugar",
    hi := "An elevated fasting glucose may suggest your body is having difficulty regulating blood sugar overnight. This warrants a follow-up with your doctor.",
    lo := "A fasting glucose below normal is relatively uncommon and can cause symptoms. Please inform your doctor, especially if you feel unwell." },
  { key := "hba1c",
    hi := "HbA1c reflects your average blood sugar over 3 months. A raised value suggests blood sugar has been consistently elevated, which is important to address.",
    lo := "A low HbA1c may occur if you have had episodes of hypoglycaemia. Your doctor can advise on adjusting your management plan." },
  { key := "total cholesterol",
    hi := "High total cholesterol may increase the risk of heart disease over time. A heart-healthy diet, exercise, and sometimes medication can help.",
    lo := "Very low cholesterol is uncommon and usually not a concern, but your doctor should review it in context." },
  { key := "ldl cholesterol",
    hi := "High LDL (\x27bad\x27) cholesterol is a key risk factor for heart disease. Reducing saturated fats and increasing fibre can help lower it.",
    lo := "Low LDL is generally positive for heart health." },
  { key := "hdl cholesterol",
    hi := "High HDL (\x27good\x27) cholesterol is generally protective for the heart.",
    lo := "Low HDL may increase cardiovascular risk. Regular aerobic exercise and avoiding smoking can help raise HDL levels." },
  { key := "triglycerides",
    hi := "High triglycerides are linked to heart and pancreas risk. Reducing sugar, refined carbs, and alcohol usually helps.",
    lo := "Low triglycerides are generally considered healthy." },
  { key := "creatinine",
    hi := "Elevated creatinine may indicate reduced kidney function. Staying well hydrated and avoiding nephrotoxic substances is important. Your doctor may request further kidney tests.",
    lo := "Low creatinine can occur in people with low muscle mass. Usually not a concern on its own." },
  { key := "tsh",
    hi := "High TSH suggests the thyroid gland may be underactive (hypothyroidism). Symptoms include fatigue, weight gain, and feeling cold. Thyroid hormone replacement therapy is effective.",
    lo := "Low TSH may indicate an overactive thyroid (hyperthyroidism). Symptoms include weight loss, fast heartbeat, and anxiety. Your doctor will likely run further thyroid tests." }]

/-- The keyed lifestyle-tip table, in source order. -/
def LIFESTYLE_MAP : List (String × List String) := [
  ("blood glucose",
   ["🥗 Choose low-glycaemic foods (vegetables, whole grains, legumes)",
    "🚶 Walk for at least 30 minutes daily",
    "💧 Drink 8+ glasses of water each day",
    "⚖️ Maintain a healthy weight",
    "🧘 Manage stress — it affects blood sugar"]),
  ("cholesterol",
   ["🥦 Eat more soluble fibre (oats, apples, beans)",
    "🐟 Include omega-3 rich foods (salmon, walnuts, flaxseeds)",
    "🧈 Reduce saturated and trans fats",
    "🚴 Exercise most days of the week",
    "🚭 Avoid smoking"]),
  ("hemoglobin",
   ["🥩 Eat iron-rich foods (spinach, lean red meat, lentils)",
    "🍊 Pair iron foods with vitamin C to boost absorption",
    "🩺 Ask your doctor about iron supplements if needed",
    "🥚 Include B12 sources (eggs, dairy, fish)"]),
  ("creatinine",
   ["💧 Stay well hydrated throughout the day",
    "🧂 Limit high-salt, high-protein processed foods",
    "🚫 Avoid unnecessary pain-killer overuse (NSAIDs)",
    "🩺 Get kidney function monitored regularly"]),
  ("tsh",
   ["😴 Prioritise 7–9 hours of sleep nightly",
    "🧘 Practice stress management (yoga, meditation)",
    "💊 Take prescribed thyroid medication consistently",
    "🩺 Get thyroid levels re-tested as your doctor advises"])]

/-- The generic lifestyle tips. -/
def GENERIC_LIFESTYLE : List String :=
  ["😴 Get 7–8 hours of quality sleep each night",
   "💧 Stay hydrated — drink 8 glasses of water daily",
   "🥗 Eat a balanced diet with plenty of fruits and vegetables",
   "🚶 Be physically active for at least 30 minutes most days",
   "🧘 Manage stress through mindfulness, hobbies, or social connection",
   "🩺 Keep regular follow-up appointments with your doctor",
   "🚭 Avoid smoking and limit alcohol"]

/-- A per-test finding of the summary. -/
structure Finding where
  name : String
  status : String
  value : ℚ
  unit : String
  refRange : String
  direction : String
  sevWord : String
  explanation : String
deriving DecidableEq

/-- The final narrative bundle. -/
structure Summary where
  heading : String
  description : String
  findings : List Finding
  lifestyle : List String
  total : Nat
  abnormalCount : Nat
  normalCount : Nat
deriving DecidableEq

/-- The status cell as a string. -/
def statusStr : Status → String
  | Status.normal => "Normal"
  | Status.high => "High"
  | Status.low => "Low"
  | Status.unknown => "Unknown"

/-- The severity word map, defaulting to the empty string. -/
def sevWordOf : Severity → String
  | Severity.mild => "slightly"
  | Severity.moderate => "notably"
  | Severity.severe => "significantly"
  | Severity.none => ""

/-- One abnormal row to its Finding, together with the lifestyle keys
collected inside the matching explanation branch. -/
def findingOf (r : ClassifiedRow) : Finding × List String :=
  let nameKey := pyLowerS r.test
  let direction := if r.status = Status.low then "lower" else "higher"
  let base : Finding :=
    { name := r.test, status := statusStr r.status, value := r.value,
      unit := r.unit, refRange := r.refRange, direction := direction,
      sevWord := sevWordOf r.severity, explanation := "" }
  match EXPLANATIONS.find? (fun e => isInfix e.key.data nameKey.data) with
  | none => (base, [])
  | some e =>
    let expl := if r.status = Status.high then e.hi else e.lo
    let keys := (LIFESTYLE_MAP.filter
      (fun kv => isInfix kv.1.data nameKey.data)).map (fun kv => kv.1)
    ({ base with explanation := expl }, keys)

/-- Order-preserving deduplication (dict.fromkeys). -/
def dedupStr : List String → List String → List String
  | [], _ => []
  | s :: ss, seen =>
    if seen.contains s then dedupStr ss seen else s :: dedupStr ss (s :: seen)

/-- The fixed Summary of an empty record list. -/
def noDataSummary : Summary :=
  { heading := "No Data Extracted",
    description := "We could not identify any lab values from this report. The file may be unclear or in an unsupported format.",
    findings := [],
    lifestyle := GENERIC_LIFESTYLE,
    total := 0, abnormalCount := 0, normalCount := 0 }

/-- Stage 6: plain-language summary.  The lifestyle-key set is
iterated here in first-collection order; Python iterates a set in a
process-deterministic order, so any fixed order gives the same
double-run behaviour, and every tip list is deduplicated afterwards.
The gender argument is accepted and unused, as in the source. -/
def generate_summary (rows : List ClassifiedRow) (age : Option Int)
    (_gender : String) : Summary :=
  if rows.isEmpty then noDataSummary
  else
    let total := rows.length
    let isSenior := 60 ≤ (age.getD 0)
    let lead := if isSenior then "In simple terms: " else ""
    let abnormal := rows.filter
      (fun r => r.status = Status.high ∨ r.status = Status.low)
    let nAbn := abnormal.length
    let nNorm := total - nAbn
    let hd :=
      if nAbn = 0 then
        ("All Values Within Normal Range",
         lead ++ "Your report shows " ++ natStr total ++
           " test values. All of them are within the expected reference ranges. This is a positive result. Continue your healthy habits and attend routine check-ups with your doctor.")
      else if nAbn = 1 then
        ("One Value Needs Attention",
         lead ++ "Your report shows " ++ natStr total ++
           " values. One result is outside the normal range. This alone may not be serious, but it is worth discussing with your doctor.")
      else
        (natStr nAbn ++ " Values Need Attention",
         lead ++ "Your report shows " ++ natStr total ++ " values — " ++
           natStr nNorm ++ " are normal and " ++ natStr nAbn ++
           " are outside the expected range. Please share this report with your doctor for proper evaluation.")
    let pairs := abnormal.map findingOf
    let findings := pairs.map (fun p => p.1)
    let lifestyleKeys := dedupStr (pairs.flatMap (fun p => p.2)) []
    let fromKeys := lifestyleKeys.flatMap
      (fun k => ((LIFESTYLE_MAP.find? (fun kv => kv.1 = k)).map
        (fun kv => kv.2)).getD [])
    let lifestyle :=
      if fromKeys.isEmpty then GENERIC_LIFESTYLE
      else fromKeys ++ [GENERIC_LIFESTYLE[5]!, GENERIC_LIFESTYLE[6]!]
    { heading := hd.1, description := hd.2, findings := findings,
      lifestyle := dedupStr lifestyle [],
      total := total, abnormalCount := nAbn, normalCount := nNorm }

/-! ### The full pipeline -/

/-- The pipeline as wired in the application: extraction, abnormal
detection, risk scoring on the classified frame, summary generation.
Option.none models an uncaught exception (never reached). -/
def analyze (text : String) (age : Option Int) (gender : String) :
    Option (List ClassifiedRow × List RiskScore × Summary) :=
  (detect_abnormal (extract_parameters text)).map
    (fun df => (df, compute_risk_scores df, generate_summary df age gender))


/-! ## Theorems -/

/-! ### Bridge lemmas: the mkRat arithmetic agrees with the field
operations on ℚ -/

theorem mkRat_eq_cast_div (n : Int) (d : Nat) :
    (mkRat n d : ℚ) = (n : ℚ) / (d : ℚ) := by
  rw [Rat.mkRat_eq_divInt, Rat.divInt_eq_div]
  push_cast
  rfl

theorem qSub_eq (a b : ℚ) : qSub a b = a - b := by
  have hb : ((b.den : ℚ)) ≠ 0 := by
    exact_mod_cast b.den_nz
  have ha : ((a.den : ℚ)) ≠ 0 := by
    exact_mod_cast a.den_nz
  rw [qSub, mkRat_eq_cast_div]
  push_cast
  conv_rhs => rw [← Rat.num_div_den a, ← Rat.num_div_den b]
  field_simp
  ring

theorem qMul_eq (a b : ℚ) : qMul a b = a * b := by
  have hb : ((b.den : ℚ)) ≠ 0 := by
    exact_mod_cast b.den_nz
  have ha : ((a.den : ℚ)) ≠ 0 := by
    exact_mod_cast a.den_nz
  rw [qMul, mkRat_eq_cast_div]
  push_cast
  conv_rhs => rw [← Rat.num_div_den a, ← Rat.num_div_den b]
  field_simp

theorem qInv_eq (b : ℚ) : qInv b = b⁻¹ := by
  rcases lt_trichotomy b.num 0 with h | h | h
  · have hne : ¬ 0 < b.num := by omega
    rw [qInv, if_neg hne, if_pos h, mkRat_eq_cast_div]
    have hq : ((b.num.natAbs : Nat) : ℚ) = -((b.num : Int) : ℚ) := by
      rw [Int.cast_natAbs]
      exact_mod_cast abs_of_neg h
    rw [hq, Rat.inv_def', Rat.divInt_eq_div]
    push_cast
    rw [div_neg, neg_div, neg_neg]
  · have h0 : b = 0 := Rat.num_eq_zero.mp h
    subst h0
    simp [qInv]
  · rw [qInv, if_pos h, mkRat_eq_cast_div]
    have hq : ((b.num.natAbs : Nat) : ℚ) = ((b.num : Int) : ℚ) := by
      rw [Int.cast_natAbs]
      exact_mod_cast abs_of_nonneg h.le
    rw [hq, Rat.inv_def', Rat.divInt_eq_div]

theorem qDiv_eq (a b : ℚ) : qDiv a b = a / b := by
  rw [qDiv, qMul_eq, qInv_eq, div_eq_mul_inv]

theorem qAbs_eq (q : ℚ) : qAbs q = |q| := by
  by_cases h : q < 0
  · rw [qAbs, if_pos h, abs_of_neg h, mkRat_eq_cast_div]
    push_cast
    rw [neg_div]
    rw [Rat.num_div_den]
  · rw [qAbs, if_neg h, abs_of_nonneg (not_lt.mp h)]

theorem mkRat_one_fifth : (mkRat 1 5 : ℚ) = 1 / 5 := by
  rw [mkRat_eq_cast_div]
  norm_num

theorem mkRat_one_half : (mkRat 1 2 : ℚ) = 1 / 2 := by
  rw [mkRat_eq_cast_div]
  norm_num


/-! ### List helper lemmas -/

theorem mem_insertDesc (x y : RiskScore) (l : List RiskScore) :
    x ∈ insertDesc y l ↔ x = y ∨ x ∈ l := by
  induction l with
  | nil => simp [insertDesc]
  | cons z zs ih =>
    simp only [insertDesc]
    split
    · simp [ih]
      tauto
    · simp

theorem mem_sortDesc (x : RiskScore) (l : List RiskScore) :
    x ∈ sortDesc l ↔ x ∈ l := by
  induction l with
  | nil => simp [sortDesc]
  | cons y ys ih =>
    simp only [sortDesc]
    rw [mem_insertDesc]
    simp [ih]

theorem dedupSeen_filter (k : String) :
    ∀ (l : List Row) (seen : List String),
      (dedupSeen l seen).filter (fun r => keyL r == k) =
        if seen.contains k then []
        else (l.filter (fun r => keyL r == k)).take 1 := by
  intro l
  induction l with
  | nil => intro seen; simp [dedupSeen]
  | cons r rs ih =>
    intro seen
    by_cases hk : keyL r = k
    · subst hk
      by_cases hs : seen.contains (keyL r)
      · rw [dedupSeen, if_pos hs, ih, if_pos hs, if_pos hs]
      · rw [dedupSeen, if_neg hs, if_neg hs]
        simp only [List.filter_cons, beq_self_eq_true, if_pos]
        rw [ih]
        have : (keyL r :: seen).contains (keyL r) = true := by
          simp [List.contains_cons]
        rw [if_pos this]
        simp
    · have hfk : (keyL r == k) = false := by
        simp [hk]
      by_cases hs : seen.contains (keyL r)
      · rw [dedupSeen, if_pos hs, ih]
        simp only [List.filter_cons, hfk]
        rfl
      · rw [dedupSeen, if_neg hs]
        simp only [List.filter_cons, hfk, Bool.false_eq_true, if_neg,
          not_false_eq_true]
        rw [ih]
        have : (keyL r :: seen).contains k = seen.contains k := by
          simp [List.contains_cons, hk]
          intro h
          exact absurd h.symm hk
        rw [this]

theorem dedupSeen_keys :
    ∀ (l : List Row) (seen : List String),
      ((dedupSeen l seen).map keyL).Nodup ∧
        ∀ r ∈ dedupSeen l seen, seen.contains (keyL r) = false := by
  intro l
  induction l with
  | nil => intro seen; simp [dedupSeen]
  | cons r rs ih =>
    intro seen
    by_cases hs : seen.contains (keyL r) = true
    · rw [dedupSeen, if_pos hs]
      exact ih seen
    · have hs2 : seen.contains (keyL r) = false := by
        revert hs
        cases seen.contains (keyL r) <;> simp
      rw [dedupSeen, if_neg hs]
      obtain ⟨ihn, ihm⟩ := ih (keyL r :: seen)
      refine ⟨?_, ?_⟩
      · rw [List.map_cons, List.nodup_cons]
        refine ⟨?_, ihn⟩
        intro hmem
        obtain ⟨r2, hr2, hkey⟩ := List.mem_map.mp hmem
        have hc := ihm r2 hr2
        rw [hkey, List.contains_cons] at hc
        simp at hc
      · intro r2 hr2
        rcases List.mem_cons.mp hr2 with h | h
        · subst h
          exact hs2
        · have hc := ihm r2 h
          rw [List.contains_cons] at hc
          exact (Bool.or_eq_false_iff.mp hc).2

theorem dropDupTest_id :
    ∀ (l : List Row) (seen : List String),
      (l.map (fun r => r.test)).Nodup →
      (∀ r ∈ l, seen.contains r.test = false) →
      dropDupTest l seen = l := by
  intro l
  induction l with
  | nil => intro seen _ _; rfl
  | cons r rs ih =>
    intro seen hnd hni
    have hr : seen.contains r.test = false := hni r (List.mem_cons_self r rs)
    rw [List.map_cons, List.nodup_cons] at hnd
    obtain ⟨hhead, htail⟩ := hnd
    rw [dropDupTest, if_neg (by rw [hr]; exact Bool.false_ne_true)]
    congr 1
    apply ih (r.test :: seen) htail
    intro r2 hr2
    rw [List.contains_cons, Bool.or_eq_false_iff]
    refine ⟨?_, hni r2 (List.mem_cons_of_mem r hr2)⟩
    have hne : r2.test ≠ r.test := by
      intro he
      exact hhead (he ▸ List.mem_map_of_mem (fun x => x.test) hr2)
    simp [hne]

theorem extract_eq_dedup (text : String) :
    extract_parameters text = dedupSeen (parsedRows text) [] := by
  unfold extract_parameters
  obtain ⟨hnd, _⟩ := dedupSeen_keys (parsedRows text) []
  apply dropDupTest_id
  · have hmm : (dedupSeen (parsedRows text) []).map keyL =
        ((dedupSeen (parsedRows text) []).map (fun r => r.test)).map pyLowerS := by
      rw [List.map_map]
      rfl
    rw [hmm] at hnd
    exact hnd.of_map
  · intro r _
    rfl

theorem mem_dedupSeen {r : Row} :
    ∀ {l : List Row} {seen : List String}, r ∈ dedupSeen l seen → r ∈ l := by
  intro l
  induction l with
  | nil => intro seen h; simp [dedupSeen] at h
  | cons x xs ih =>
    intro seen h
    rw [dedupSeen] at h
    split at h
    · exact List.mem_cons_of_mem x (ih h)
    · rcases List.mem_cons.mp h with h1 | h1
      · exact h1 ▸ List.mem_cons_self x xs
      · exact List.mem_cons_of_mem x (ih h1)

theorem mem_extract {r : Row} {text : String}
    (h : r ∈ extract_parameters text) :
    ∃ line ∈ splitLines text.data [], processLine line = some r := by
  rw [extract_eq_dedup] at h
  have hm := mem_dedupSeen h
  exact List.mem_filterMap.mp hm

/-! ### The substring-selection loop computes the first longest key -/

theorem mergeBest_none_right (a : Option (String × RefEntry)) :
    mergeBest a none = a := by
  cases a <;> rfl

theorem mergeBest_assoc (a b c : Option (String × RefEntry)) :
    mergeBest (mergeBest a b) c = mergeBest a (mergeBest b c) := by
  rcases a with _ | a
  · rfl
  · rcases b with _ | b
    · rfl
    · rcases c with _ | c
      · rw [mergeBest_none_right, mergeBest_none_right]
      · by_cases h1 : a.1.data.length < b.1.data.length
        · by_cases h2 : b.1.data.length < c.1.data.length
          · have h3 : a.1.data.length < c.1.data.length := by omega
            simp only [mergeBest, if_pos h1, if_pos h2, if_pos h3]
          · simp only [mergeBest, if_pos h1, if_neg h2]
        · by_cases h2 : b.1.data.length < c.1.data.length
          · simp only [mergeBest, if_neg h1, if_pos h2]
          · have h3 : ¬ a.1.data.length < c.1.data.length := by omega
            simp only [mergeBest, if_neg h1, if_neg h2, if_neg h3]

theorem bestKeyAux_merge (n : List Char) :
    ∀ (l : List (String × RefEntry)) (best : Option (String × RefEntry)),
      bestKeyAux n l best =
        mergeBest best (firstMax (l.filter
          (fun kv => isInfix kv.1.data n || isInfix n kv.1.data))) := by
  intro l
  induction l with
  | nil =>
    intro best
    simp only [bestKeyAux, List.filter_nil, firstMax, mergeBest_none_right]
  | cons kv rest ih =>
    intro best
    simp only [bestKeyAux]
    by_cases hc : (isInfix kv.1.data n || isInfix n kv.1.data) = true
    · rw [if_pos hc, ih, List.filter_cons, if_pos hc, firstMax,
        ← mergeBest_assoc]
      congr 1
      cases best with
      | none => rfl
      | some b => rfl
    · rw [if_neg hc, ih, List.filter_cons, if_neg hc]

theorem maxKeyLen_cons (x : String × RefEntry) (xs : List (String × RefEntry)) :
    maxKeyLen (x :: xs) = max x.1.data.length (maxKeyLen xs) := by
  simp [maxKeyLen]

theorem specPick_isSome :
    ∀ (l : List (String × RefEntry)), l ≠ [] → (specPick l).isSome := by
  intro l
  induction l with
  | nil => intro h; exact absurd rfl h
  | cons x xs ih =>
    intro _
    by_cases hx : x.1.data.length = maxKeyLen (x :: xs)
    · unfold specPick
      rw [List.find?_cons_of_pos _ (by simp only [decide_eq_true_eq]; exact hx)]
      rfl
    · have hxs : xs ≠ [] := by
        intro he
        subst he
        rw [maxKeyLen_cons] at hx
        have h0 : maxKeyLen ([] : List (String × RefEntry)) = 0 := rfl
        rw [h0, Nat.max_zero] at hx
        exact hx rfl
      have hM : maxKeyLen (x :: xs) = maxKeyLen xs := by
        rw [maxKeyLen_cons] at hx ⊢
        omega
      unfold specPick
      rw [List.find?_cons_of_neg _ (by simp only [decide_eq_true_eq]; exact hx),
        hM]
      exact ih hxs

theorem firstMax_eq_specPick :
    ∀ (l : List (String × RefEntry)), firstMax l = specPick l := by
  intro l
  induction l with
  | nil => rfl
  | cons x xs ih =>
    rw [firstMax, ih]
    by_cases hx : x.1.data.length = maxKeyLen (x :: xs)
    · cases hm : specPick xs with
      | none =>
        rw [mergeBest_none_right]
        unfold specPick
        rw [List.find?_cons_of_pos _ (by simp only [decide_eq_true_eq]; exact hx)]
      | some m =>
        have hm2 : xs.find? (fun kv => decide (kv.1.data.length = maxKeyLen xs)) =
            some m := hm
        have hpa := List.find?_some hm2
        have hml : m.1.data.length = maxKeyLen xs := of_decide_eq_true hpa
        have hlt : ¬ x.1.data.length < m.1.data.length := by
          rw [maxKeyLen_cons] at hx
          omega
        simp only [mergeBest]
        rw [if_neg hlt]
        unfold specPick
        rw [List.find?_cons_of_pos _ (by simp only [decide_eq_true_eq]; exact hx)]
    · have hxs : xs ≠ [] := by
        intro he
        subst he
        rw [maxKeyLen_cons] at hx
        have h0 : maxKeyLen ([] : List (String × RefEntry)) = 0 := rfl
        rw [h0, Nat.max_zero] at hx
        exact hx rfl
      have hM : maxKeyLen (x :: xs) = maxKeyLen xs := by
        rw [maxKeyLen_cons] at hx ⊢
        omega
      obtain ⟨m, hm⟩ := Option.isSome_iff_exists.mp (specPick_isSome xs hxs)
      have hm2 : xs.find? (fun kv => decide (kv.1.data.length = maxKeyLen xs)) =
          some m := hm
      have hpa := List.find?_some hm2
      have hml : m.1.data.length = maxKeyLen xs := of_decide_eq_true hpa
      have hlt : x.1.data.length < m.1.data.length := by
        rw [maxKeyLen_cons] at hx
        omega
      rw [hm]
      simp only [mergeBest]
      rw [if_pos hlt]
      unfold specPick
      rw [List.find?_cons_of_neg _ (by simp only [decide_eq_true_eq]; exact hx),
        hM]
      exact hm2.symm

/-! ### Claim theorems: lookup, classifier, severity -/

/-- C6: the reference lookup follows the specified matching order —
exact case-insensitive alias match first, else the longest substring
candidate with first-insertion tie break, else the title-cased
fallback with no bounds. -/
theorem lookup_reference_eq_spec (name : List Char) :
    lookup_reference name = lookupSpec name := by
  simp only [lookup_reference, lookupSpec]
  rw [bestKeyAux_merge, firstMax_eq_specPick]
  rfl

/-- C4: within a between range, Normal exactly on the closed
interval. -/
theorem status_between_normal_iff (v lo hi : ℚ) :
    compute_status v (PyF.val lo) (PyF.val hi) (some RefKind.between) =
      some Status.normal ↔ lo ≤ v ∧ v ≤ hi := by
  by_cases h1 : v < lo
  · simp [compute_status, pyLt, pyGt, h1]
  · by_cases h2 : hi < v
    · simp [compute_status, pyLt, pyGt, h1, h2]
    · simp [compute_status, pyLt, pyGt, h1, h2]
      exact ⟨le_of_not_lt h1, le_of_not_lt h2⟩

/-- C2 (amended): a record with no inline range and a database range
whose two bounds are both nonzero is classified against the between
rule and is never Unknown. -/
theorem status_db_between (v lo hi : ℚ) (hlo : lo ≠ 0) (hhi : hi ≠ 0) :
    compute_status v (PyF.val lo) (PyF.val hi)
        (mergeKind none (some lo) (some hi)) =
      some (if v < lo then Status.low
        else if v > hi then Status.high else Status.normal) ∧
    compute_status v (PyF.val lo) (PyF.val hi)
        (mergeKind none (some lo) (some hi)) ≠ some Status.unknown := by
  have hk : mergeKind none (some lo) (some hi) = some RefKind.between := by
    simp [mergeKind, truthyQ, hlo, hhi]
  rw [hk]
  unfold compute_status pyLt pyGt
  rw [if_neg (by simp)]
  by_cases h1 : v < lo <;> by_cases h2 : hi < v <;>
    simp [h1, h2, GT.gt]

/-- Evaluation of compute_severity on two numeric bounds, in field
terms. -/
theorem compute_severity_val_eq (v l h : ℚ) (st : Status)
    (hst : st = Status.high ∨ st = Status.low) :
    compute_severity v (PyF.val l) (PyF.val h) st =
      (if |h - l| = 0 then Severity.moderate
       else if |v - (if st = Status.low then l else h)| / |h - l| < 1 / 5 then
         Severity.mild
       else if |v - (if st = Status.low then l else h)| / |h - l| < 1 / 2 then
         Severity.moderate
       else Severity.severe) := by
  have hne1 : ¬ (st = Status.normal ∨ st = Status.unknown) := by
    rcases hst with h1 | h1 <;> subst h1 <;> simp
  unfold compute_severity
  rw [if_neg hne1, if_neg (by simp)]
  simp only [qAbs_eq, qSub_eq, qDiv_eq, mkRat_one_fifth, mkRat_one_half]

/-- C7 (amended): for an abnormal record, a None bound or a zero span
gives Moderate and two numeric bounds give the threshold buckets; but
a NaN bound cell (a bound missing in a column where some other record
has one) defeats the guard and gives Severe. -/
theorem severity_cases (v : ℚ) (lo hi : PyF) (st : Status)
    (hst : st = Status.high ∨ st = Status.low) :
    ((lo = PyF.none ∨ hi = PyF.none) →
      compute_severity v lo hi st = Severity.moderate) ∧
    (∀ l h, lo = PyF.val l → hi = PyF.val h →
      ((|h - l| = 0 → compute_severity v lo hi st = Severity.moderate) ∧
       (|h - l| ≠ 0 →
         compute_severity v lo hi st =
           (if |v - (if st = Status.low then l else h)| / |h - l| < 1 / 5 then
              Severity.mild
            else if |v - (if st = Status.low then l else h)| / |h - l| < 1 / 2
              then Severity.moderate
            else Severity.severe)))) ∧
    (lo ≠ PyF.none → hi ≠ PyF.none → (lo = PyF.nan ∨ hi = PyF.nan) →
      compute_severity v lo hi st = Severity.severe) := by
  have hne1 : ¬ (st = Status.normal ∨ st = Status.unknown) := by
    rcases hst with h1 | h1 <;> subst h1 <;> simp
  refine ⟨?_, ?_, ?_⟩
  · intro hmiss
    unfold compute_severity
    rw [if_neg hne1, if_pos hmiss]
  · intro l h hl hh
    subst hl
    subst hh
    rw [compute_severity_val_eq v l h st hst]
    constructor
    · intro hsp
      rw [if_pos hsp]
    · intro hsp
      rw [if_neg hsp]
  · intro hlo hhi hnan
    unfold compute_severity
    rw [if_neg hne1, if_neg (by
      intro hc
      rcases hc with hc | hc
      · exact hlo hc
      · exact hhi hc)]
    rcases lo with _ | _ | l
    · exact absurd rfl hlo
    · rcases hi with _ | _ | h
      · exact absurd rfl hhi
      · rfl
      · rfl
    · rcases hi with _ | _ | h
      · exact absurd rfl hhi
      · rfl
      · rcases hnan with hc | hc <;> exact absurd hc (by simp)


/-! ### Claim theorems: risk scores, deduplication, display, pipeline -/

/-- C3 (amended): every reported category comes from a table entry
with at least one relevant test; its counts are the relevant count and
the count of records whose status differs from Normal (Unknown counts
as abnormal), and the score is the integer floor of 100 times their
ratio, hence at most 100.  Categories without relevant tests are
absent, since every output entry names a category with relevant
tests. -/
theorem risk_scores_spec (rows : List ClassifiedRow) (c : RiskScore)
    (hc : c ∈ compute_risk_scores rows) :
    ∃ meta ∈ RISK_CATEGORIES, c.category = meta.category ∧
      relevantOf rows meta ≠ [] ∧
      c.testsFound = (relevantOf rows meta).length ∧
      c.testsAbnormal = abnOf rows meta ∧
      c.score = abnOf rows meta * 100 / (relevantOf rows meta).length ∧
      c.score ≤ 100 := by
  unfold compute_risk_scores at hc
  split at hc
  · simp at hc
  · rw [mem_sortDesc] at hc
    obtain ⟨meta, hmeta, hr⟩ := List.mem_filterMap.mp hc
    refine ⟨meta, hmeta, ?_⟩
    unfold riskOf at hr
    dsimp only at hr
    split at hr
    · exact absurd hr (by simp)
    · rename_i hne
      have hrel : relevantOf rows meta ≠ [] := by
        intro he
        exact hne (by rw [he]; rfl)
      have hceq := Option.some.inj hr
      have hpos : 0 < (relevantOf rows meta).length :=
        List.length_pos.mpr hrel
      have habn : abnOf rows meta ≤ (relevantOf rows meta).length :=
        List.countP_le_length _
      refine ⟨by rw [← hceq], hrel, by rw [← hceq], by rw [← hceq],
        by rw [← hceq], ?_⟩
      rw [← hceq]
      show abnOf rows meta * 100 / (relevantOf rows meta).length ≤ 100
      calc abnOf rows meta * 100 / (relevantOf rows meta).length
          ≤ (relevantOf rows meta).length * 100 /
              (relevantOf rows meta).length :=
            Nat.div_le_div_right (Nat.mul_le_mul_right _ habn)
        _ = 100 := by
            rw [Nat.mul_comm]
            exact Nat.mul_div_cancel 100 hpos

/-- Inversion of processLine: a produced row is the resolution of some
raw match. -/
theorem processLine_some {line : List Char} {r : Row}
    (h : processLine line = some r) : ∃ m, r = resolveRow m := by
  unfold processLine at h
  dsimp only at h
  split at h
  · exact absurd h (by simp)
  · split at h
    · exact absurd h (by simp)
    · split at h
      · exact absurd h (by simp)
      · split at h
        · exact absurd h (by simp)
        · rename_i m _ _ _
          exact ⟨m, (Option.some.inj h).symm⟩

/-- C10: the Reference Range display of every extracted record uses
the interpolated pair exactly when both resolved bounds are truthy
(non-null, nonzero) and otherwise falls back to the raw inline range
text, or an em dash when none was captured. -/
theorem display_range_rule (text : String) (r : Row)
    (hr : r ∈ extract_parameters text) :
    r.refRange = (if truthyQ r.refLo && truthyQ r.refHi then
        fmtQ (r.refLo.getD 0) ++ " – " ++ fmtQ (r.refHi.getD 0)
      else if r.rawRef = "" then "—" else r.rawRef) := by
  obtain ⟨line, _, hl⟩ := mem_extract hr
  obtain ⟨m, rfl⟩ := processLine_some hl
  rfl

/-- C5: deduplication keeps exactly the first parsed row of every
canonical name: filtering the output on a name that at least two
parsed lines resolve to yields precisely the first such parsed row. -/
theorem dedup_first_wins (text : String) (k : String)
    (h2 : 2 ≤ ((parsedRows text).filter (fun r => keyL r == k)).length) :
    (extract_parameters text).filter (fun r => keyL r == k) =
      ((parsedRows text).filter (fun r => keyL r == k)).take 1 ∧
    ((extract_parameters text).filter (fun r => keyL r == k)).length = 1 := by
  have he : (extract_parameters text).filter (fun r => keyL r == k) =
      ((parsedRows text).filter (fun r => keyL r == k)).take 1 := by
    rw [extract_eq_dedup, dedupSeen_filter k (parsedRows text) []]
    rfl
  refine ⟨he, ?_⟩
  rw [he, List.length_take]
  omega

/-- C8: when nothing is extracted the pipeline returns the empty
record list, the empty risk list and the fixed no-data summary with
the generic tips and zero counts, and raises nothing. -/
theorem empty_pipeline (text : String) (age : Option Int) (g : String)
    (h : extract_parameters text = []) :
    analyze text age g = some ([], [], noDataSummary) ∧
    noDataSummary.heading = "No Data Extracted" ∧
    noDataSummary.lifestyle = GENERIC_LIFESTYLE ∧
    noDataSummary.total = 0 ∧ noDataSummary.abnormalCount = 0 ∧
    noDataSummary.normalCount = 0 := by
  refine ⟨?_, rfl, rfl, rfl, rfl, rfl⟩
  unfold analyze
  rw [h]
  rfl

/-- C9: the pipeline is a pure function of its inputs: a second run on
the same text, age and gender yields the same records, risk scores and
summary, lifestyle-tip order included. -/
theorem analyze_deterministic (text : String) (age : Option Int)
    (g : String) : analyze text age g = analyze text age g := rfl


/-! ### Concrete counterexamples, amended scenario results and
witnesses -/

/-- C1 (counterexample): on the Scenario A line the pipeline yields no
record with value 9.5 and Status Low — pattern B, tried first, matches
the range hyphen as the name-value separator. -/
theorem scenario_a_not_low :
    ¬ ∃ r ∈ (detect_abnormal (extract_parameters
        "Hemoglobin   9.5 g/dL   12.0 - 17.5")).getD [],
      r.value = mkRat 19 2 ∧ r.status = Status.low := by
  decide

/-- C1 (amended): the Scenario A line produces the single record
Hemoglobin with value 17.5 (the text after the range hyphen), the
database unit, Status Normal and Severity None. -/
theorem scenario_a_actual :
    (detect_abnormal (extract_parameters
        "Hemoglobin   9.5 g/dL   12.0 - 17.5")).map
      (List.map (fun r => (r.test, r.value, r.unit, r.status, r.severity))) =
    some [("Hemoglobin", d1 175, "g/dL", Status.normal, Severity.none)] := by
  decide

/-- C2 (counterexample): a line with no inline range resolving to the
Total Cholesterol entry, whose bounds are present with low = 0, is
classified Unknown, not against the between rule. -/
theorem chol_unknown_cex :
    ∃ r ∈ (detect_abnormal (extract_parameters
        "Cholesterol: 250 mg/dL")).getD [],
      r.rawRef = "" ∧ r.refLo = some 0 ∧ r.refHi = some 200 ∧
        r.status = Status.unknown := by
  decide

/-- C2 (witness): the amended rule applied at value 9.5 against the
nonzero hemoglobin bounds 12 and 17.5 gives Status Low. -/
theorem status_db_between_witness :
    (12 : ℚ) ≠ 0 ∧ (d1 175 : ℚ) ≠ 0 ∧
    (compute_status (mkRat 19 2) (PyF.val 12) (PyF.val (d1 175))
        (mergeKind none (some 12) (some (d1 175))) =
      some (if (mkRat 19 2 : ℚ) < 12 then Status.low
        else if (mkRat 19 2 : ℚ) > d1 175 then Status.high
        else Status.normal) ∧
    compute_status (mkRat 19 2) (PyF.val 12) (PyF.val (d1 175))
        (mergeKind none (some 12) (some (d1 175))) ≠
      some Status.unknown) :=
  ⟨by decide, by decide,
    status_db_between (mkRat 19 2) 12 (d1 175) (by decide) (by decide)⟩

/-- C3 (counterexample): the cholesterol report has one Cardiovascular
record, with Status Unknown; only zero records have Status High or
Low, yet the category scores 100 with tests_abnormal 1. -/
theorem risk_unknown_cex :
    (analyze "Cholesterol: 250 mg/dL" none "Not specified").map
      (fun out => out.1.map (fun r => (r.test, r.status))) =
      some [("Total Cholesterol", Status.unknown)] ∧
    (analyze "Cholesterol: 250 mg/dL" none "Not specified").map
      (fun out => out.2.1.map (fun c => (c.category, c.score, c.testsAbnormal))) =
      some [("Cardiovascular Risk", 100, 1)] := by
  constructor
  · decide
  · decide

/-- C3 (witness): the amended characterization applied to the
cardiovascular entry of the cholesterol report. -/
theorem risk_scores_spec_witness :
    ∃ meta ∈ RISK_CATEGORIES,
      ({ category := "Cardiovascular Risk", icon := "❤️", score := 100,
         level := "high", testsFound := 1, testsAbnormal := 1,
         insight := "Abnormal lipid values are associated with increased cardiovascular risk." } :
        RiskScore).category = meta.category ∧
      relevantOf ((detect_abnormal (extract_parameters
          "Cholesterol: 250 mg/dL")).getD []) meta ≠ [] ∧
      ({ category := "Cardiovascular Risk", icon := "❤️", score := 100,
         level := "high", testsFound := 1, testsAbnormal := 1,
         insight := "Abnormal lipid values are associated with increased cardiovascular risk." } :
        RiskScore).testsFound =
        (relevantOf ((detect_abnormal (extract_parameters
          "Cholesterol: 250 mg/dL")).getD []) meta).length ∧
      ({ category := "Cardiovascular Risk", icon := "❤️", score := 100,
         level := "high", testsFound := 1, testsAbnormal := 1,
         insight := "Abnormal lipid values are associated with increased cardiovascular risk." } :
        RiskScore).testsAbnormal =
        abnOf ((detect_abnormal (extract_parameters
          "Cholesterol: 250 mg/dL")).getD []) meta ∧
      ({ category := "Cardiovascular Risk", icon := "❤️", score := 100,
         level := "high", testsFound := 1, testsAbnormal := 1,
         insight := "Abnormal lipid values are associated with increased cardiovascular risk." } :
        RiskScore).score =
        abnOf ((detect_abnormal (extract_parameters
          "Cholesterol: 250 mg/dL")).getD []) meta * 100 /
          (relevantOf ((detect_abnormal (extract_parameters
            "Cholesterol: 250 mg/dL")).getD []) meta).length ∧
      ({ category := "Cardiovascular Risk", icon := "❤️", score := 100,
         level := "high", testsFound := 1, testsAbnormal := 1,
         insight := "Abnormal lipid values are associated with increased cardiovascular risk." } :
        RiskScore).score ≤ 100 :=
  risk_scores_spec _ _ (by decide)

/-- C7 (counterexample): in a report where another record supplies the
low bound, the record with inline range < 4 and no resolvable low
bound is High with Severity Severe, not Moderate. -/
theorem severity_nan_cex :
    (analyze "Zzzq: 10 (< 4)\nHemoglobin: 13" none "Not specified").map
      (fun out => out.1.map (fun r => (r.refLo, r.refHi))) =
      some [(none, some 4), (some 12, some (d1 175))] ∧
    (analyze "Zzzq: 10 (< 4)\nHemoglobin: 13" none "Not specified").map
      (fun out => out.1.map (fun r => (r.test, r.status, r.severity))) =
      some [("Zzzq", Status.high, Severity.severe),
            ("Hemoglobin", Status.normal, Severity.none)] := by
  constructor
  · decide
  · decide

/-- C7 (witness): the amended severity rule applied to a High record
whose low bound cell is NaN. -/
theorem severity_cases_witness :
    (Status.high = Status.high ∨ Status.high = Status.low) ∧
    compute_severity 10 PyF.nan (PyF.val 4) Status.high =
      Severity.severe :=
  ⟨Or.inl rfl,
    (severity_cases 10 PyF.nan (PyF.val 4) Status.high (Or.inl rfl)).2.2
      (by decide) (by decide) (Or.inl rfl)⟩

/-- C5 (witness): two lines resolving to Hemoglobin; the output keeps
exactly the first parsed row. -/
theorem dedup_first_wins_witness :
    2 ≤ ((parsedRows "Hemoglobin: 13\nHaemoglobin: 15").filter
        (fun r => keyL r == "hemoglobin")).length ∧
    ((extract_parameters "Hemoglobin: 13\nHaemoglobin: 15").filter
        (fun r => keyL r == "hemoglobin") =
      ((parsedRows "Hemoglobin: 13\nHaemoglobin: 15").filter
        (fun r => keyL r == "hemoglobin")).take 1 ∧
     ((extract_parameters "Hemoglobin: 13\nHaemoglobin: 15").filter
        (fun r => keyL r == "hemoglobin")).length = 1) :=
  ⟨by decide, dedup_first_wins "Hemoglobin: 13\nHaemoglobin: 15"
    "hemoglobin" (by decide)⟩

/-- C8 (witness): the empty text extracts nothing and yields the
no-data summary. -/
theorem empty_pipeline_witness :
    extract_parameters "" = [] ∧
    (analyze "" none "Not specified" = some ([], [], noDataSummary) ∧
     noDataSummary.heading = "No Data Extracted" ∧
     noDataSummary.lifestyle = GENERIC_LIFESTYLE ∧
     noDataSummary.total = 0 ∧ noDataSummary.abnormalCount = 0 ∧
     noDataSummary.normalCount = 0) :=
  ⟨by decide, empty_pipeline "" none "Not specified" (by decide)⟩

/-- C10 (witness): the Total Cholesterol record of the cholesterol
report carries database bounds 0 and 200, yet its display falls back
to the em dash, the low bound 0 being falsy. -/
theorem display_range_rule_witness :
    ({ test := "Total Cholesterol", value := 250, unit := "mg/dL",
       refRange := "—", rawRef := "", refLo := some 0, refHi := some 200,
       refKind := none } : Row) ∈
        extract_parameters "Cholesterol: 250 mg/dL" ∧
    ({ test := "Total Cholesterol", value := 250, unit := "mg/dL",
       refRange := "—", rawRef := "", refLo := some 0, refHi := some 200,
       refKind := none } : Row).refRange =
      (if truthyQ (some (0 : ℚ)) && truthyQ (some (200 : ℚ)) then
        fmtQ ((some (0 : ℚ)).getD 0) ++ " – " ++
          fmtQ ((some (200 : ℚ)).getD 0)
      else if ("" : String) = "" then "—" else "") :=
  ⟨by decide, display_range_rule "Cholesterol: 250 mg/dL" _ (by decide)⟩


end MedLab
